import Mathlib

/-!
Verification of the XCBWrangler code generator (src/auto/auto.py).

The Python source is shallowly embedded over `List Char` (Python strings).
Each definition mirrors one Python function of the same (or closest legal)
name; the Python semantics of `str.replace`, `str.strip`, `str.startswith`,
`str.endswith`, slicing and `os.path.basename` are modelled explicitly.
-/

namespace XCB

/-! ## Python string primitives -/

/-- Characters removed by Python's `str.strip()` with no argument. -/
def isPySpace (c : Char) : Bool :=
  c == ' ' || c == '\t' || c == '\n' || c == '\r' || c == '\x0b' || c == '\x0c'

/-- Python `s.strip()`: drop whitespace from both ends. -/
def pyStrip (s : List Char) : List Char :=
  ((s.dropWhile isPySpace).reverse.dropWhile isPySpace).reverse

/-- Fuel-driven core of Python `s.replace(pat, rep)` for a nonempty `pat`:
scan left to right, replacing non-overlapping occurrences.  The fuel is
always instantiated with the length of the scanned list, which suffices
because every step consumes at least one character. -/
def replaceAllFuel (pat rep : List Char) : Nat → List Char → List Char
  | _, [] => []
  | 0, c :: cs => c :: cs
  | Nat.succ f, c :: cs =>
    if pat.isPrefixOf (c :: cs) && !pat.isEmpty then
      rep ++ replaceAllFuel pat rep f (cs.drop (pat.length - 1))
    else
      c :: replaceAllFuel pat rep f cs

/-- Python `s.replace(pat, rep)` (for the nonempty patterns the program uses). -/
def replaceAll (pat rep s : List Char) : List Char :=
  replaceAllFuel pat rep s.length s

/-- Whether `pat` occurs as a contiguous substring of `s`. -/
def occursSub (pat : List Char) : List Char → Bool
  | [] => pat.isPrefixOf []
  | c :: cs => pat.isPrefixOf (c :: cs) || occursSub pat cs

/-- Python `s.upper()` (ASCII, which is all the generator feeds it). -/
def pyUpper (s : List Char) : List Char :=
  s.map Char.toUpper

/-- Python `os.path.basename`: the part after the last slash. -/
def basenameOf (p : List Char) : List Char :=
  (p.reverse.takeWhile (fun c => !(c == '/'))).reverse

/-- Python `s.rfind(c)` when the result is used as an index: the index of the
last occurrence of `c`, or `none` when absent (Python returns -1). -/
def lastIdxOf (c : Char) (s : List Char) : Option Nat :=
  (s.reverse.findIdx? (fun x => x == c)).map (fun j => s.length - 1 - j)

/-! ## Type/Declaration Formatter (`formatAndCleanType`, `mergeTypeAndVariable`) -/

/-- Embeds `formatAndCleanType` from auto.py: replace `" *"` by `"* "`, strip,
and drop a leading `"struct "` unless the spelling ends in `'*'`. -/
def formatAndCleanType (type : List Char) : List Char :=
  let t1 := replaceAll " *".data "* ".data type
  let t2 := pyStrip t1
  if "struct ".data.isPrefixOf t2 && !(t2.getLast? == some '*') then t2.drop 7 else t2

/-- The `while type.endswith(']')` loop of `mergeTypeAndVariable`: move trailing
bracket groups from the type into the dimension accumulator.  Mirrors Python's
`rfind`/slicing, including the `rfind = -1` case where `type[-1:]` is the last
character and `type[:-1]` drops it.  The fuel is instantiated with the length
of the type, which suffices (each step shortens the type). -/
def mergeDims : Nat → List Char → List Char → List Char × List Char
  | 0, t, dim => (t, dim)
  | Nat.succ f, t, dim =>
    if t.getLast? == some ']' then
      match lastIdxOf '[' t with
      | some i => mergeDims f (t.take i) (t.drop i ++ dim)
      | none => mergeDims f t.dropLast (']' :: dim)
    else (t, dim)

/-- Embeds `mergeTypeAndVariable` from auto.py:
`"{} {}{}".format(type.strip(), variable, dimension)` after the dimension loop. -/
def mergeTypeAndVariable (type var : List Char) : List Char :=
  let t := pyStrip type
  let p := mergeDims t.length t []
  pyStrip p.1 ++ ' ' :: (var ++ p.2)

/-! ## The clang AST collaborator (black box, modelled structurally) -/

/-- The cursor kinds the generator discriminates on. -/
inductive CursorKind where
  | PARM_DECL
  | FUNCTION_DECL
  | FIELD_DECL
  | ENUM_CONSTANT_DECL
  | STRUCT_DECL
  | UNION_DECL
  | ENUM_DECL
  | TYPE_REF
  | TYPEDEF_DECL
  | other
deriving DecidableEq

/-- A clang cursor as the generator observes it: `spelling`, `type.spelling`,
`type.get_canonical().spelling`, `result_type.spelling`, `kind`, `enum_value`,
`location.file.name` (possibly absent) and children in declaration order. -/
inductive Cursor where
  | mk (spelling typeSpelling canonicalTypeSpelling resultTypeSpelling : List Char)
       (kind : CursorKind) (enumValue : Int) (locationFile : Option (List Char))
       (children : List Cursor)

def Cursor.spelling : Cursor → List Char
  | .mk s _ _ _ _ _ _ _ => s

def Cursor.typeSpelling : Cursor → List Char
  | .mk _ t _ _ _ _ _ _ => t

def Cursor.canonicalTypeSpelling : Cursor → List Char
  | .mk _ _ ct _ _ _ _ _ => ct

def Cursor.resultTypeSpelling : Cursor → List Char
  | .mk _ _ _ rt _ _ _ _ => rt

def Cursor.kind : Cursor → CursorKind
  | .mk _ _ _ _ k _ _ _ => k

def Cursor.enumValue : Cursor → Int
  | .mk _ _ _ _ _ v _ _ => v

def Cursor.locationFile : Cursor → Option (List Char)
  | .mk _ _ _ _ _ _ f _ => f

def Cursor.children : Cursor → List Cursor
  | .mk _ _ _ _ _ _ _ cs => cs

mutual

/-- clang's `walk_preorder`: the cursor followed by its descendants. -/
def walkPreorder : Cursor → List Cursor
  | .mk s t ct rt k v f cs => .mk s t ct rt k v f cs :: walkPreorderList cs

def walkPreorderList : List Cursor → List Cursor
  | [] => []
  | c :: cs => walkPreorder c ++ walkPreorderList cs

end

/-! ## Entity Model (`Argument`, `Function`, `TypeDefinition`) -/

/-- A function argument as built by `Argument.__init__`. -/
structure Argument where
  name : List Char
  type : List Char
deriving DecidableEq

/-- `Argument.__init__`: declared name and normalized type. -/
def Argument.fromCursor (c : Cursor) : Argument :=
  { name := c.spelling, type := formatAndCleanType c.typeSpelling }

/-- `Argument.__str__`: `mergeTypeAndVariable(self.type, self.name)`. -/
def Argument.toCode (a : Argument) : List Char :=
  mergeTypeAndVariable a.type a.name

/-- A function declaration as built by `Function.__init__`. -/
structure Function where
  name : List Char
  return_type : List Char
  arguments : List Argument
deriving DecidableEq

/-- `Function.__init__`: normalized result type, declared name, and the
`PARM_DECL` children (only) as arguments in declaration order. -/
def Function.fromCursor (c : Cursor) : Function :=
  { name := c.spelling
    return_type := formatAndCleanType c.resultTypeSpelling
    arguments := (c.children.filter (fun ch => ch.kind == CursorKind.PARM_DECL)).map
      Argument.fromCursor }

/-- `combine_struct_or_union_decl`: tag name, then one two-space-indented
merged field line per `FIELD_DECL` child, then the closing brace. -/
def combine_struct_or_union_decl (c : Cursor) : List Char :=
  c.spelling ++ " \x7b\n".data ++
    ((c.children.filter (fun ch => ch.kind == CursorKind.FIELD_DECL)).map
      (fun ch => "  ".data ++
        mergeTypeAndVariable (formatAndCleanType ch.typeSpelling) ch.spelling ++
        ";\n".data)).flatten ++
    "\x7d".data

/-- `combine_struct_decl`. -/
def combine_struct_decl (c : Cursor) : List Char :=
  "struct ".data ++ combine_struct_or_union_decl c

/-- `combine_union_decl`. -/
def combine_union_decl (c : Cursor) : List Char :=
  "union ".data ++ combine_struct_or_union_decl c

/-- `combine_enum_decl`: one `"  name = value,\n"` line per
`ENUM_CONSTANT_DECL` child, values as the AST-resolved integers. -/
def combine_enum_decl (c : Cursor) : List Char :=
  "enum ".data ++ c.spelling ++ " \x7b\n".data ++
    ((c.children.filter (fun ch => ch.kind == CursorKind.ENUM_CONSTANT_DECL)).map
      (fun ch => "  ".data ++ ch.spelling ++ " = ".data ++
        (toString ch.enumValue).data ++ ",\n".data)).flatten ++
    "\x7d".data

/-- A typedef as built by `TypeDefinition.__init__`. -/
structure TypeDefinition where
  name : List Char
  type : List Char
deriving DecidableEq

/-- One iteration of the child loop in `TypeDefinition.__init__`: the Python
`if/elif` chain assigns `self.type` for each matching child, so a later
matching child overwrites an earlier one (there is no `break`). -/
def typeResolveStep (acc : Option (List Char)) (child : Cursor) : Option (List Char) :=
  match child.kind with
  | CursorKind.STRUCT_DECL => some (combine_struct_decl child)
  | CursorKind.UNION_DECL => some (combine_union_decl child)
  | CursorKind.ENUM_DECL => some (combine_enum_decl child)
  | CursorKind.TYPE_REF => some child.spelling
  | _ => acc

/-- `TypeDefinition.__init__`: run the child loop; if no child assigned a
type, fall back to the canonical spelling of the underlying type. -/
def TypeDefinition.fromCursor (c : Cursor) : TypeDefinition :=
  { name := c.spelling
    type :=
      match c.children.foldl typeResolveStep none with
      | some t => t
      | none => formatAndCleanType c.canonicalTypeSpelling }

/-- `TypeDefinition.__str__`. -/
def TypeDefinition.toCode (td : TypeDefinition) : List Char :=
  "typedef ".data ++ td.type ++ " ".data ++ td.name

/-! ## Declaration Extractor (`collect_*`) -/

/-- `collect_function_prototypes`: walk the tree, keep `FUNCTION_DECL` cursors
whose originating file is present and equals the header itself. -/
def collect_function_prototypes (tu : Cursor) : List Function :=
  ((walkPreorder tu).filter (fun c =>
      c.locationFile == some tu.spelling && c.kind == CursorKind.FUNCTION_DECL)).map
    Function.fromCursor

/-- `collect_types`: same filter, for `TYPEDEF_DECL` cursors. -/
def collect_types (tu : Cursor) : List TypeDefinition :=
  ((walkPreorder tu).filter (fun c =>
      c.locationFile == some tu.spelling && c.kind == CursorKind.TYPEDEF_DECL)).map
    TypeDefinition.fromCursor

/-- `collect_defines`: line-scan of the raw header text.  Each line is
stripped first; the stripped line is kept when it starts with
`"#define XCB"` (note: the stripped line is appended, not the raw one). -/
def collect_defines : List (List Char) → List (List Char)
  | [] => []
  | l :: ls =>
    if "#define XCB".data.isPrefixOf (pyStrip l) then
      pyStrip l :: collect_defines ls
    else
      collect_defines ls

/-! ## Code Synthesizer (`generate_*`) -/

/-- `generate_function_typedefs`:
`typedef <ret> (*t<name>) (<args joined by ",">);`. -/
def generate_function_typedefs (functions : List Function) : List (List Char) :=
  functions.map (fun f =>
    "typedef ".data ++ f.return_type ++ " (*t".data ++ f.name ++ ") (".data ++
      List.intercalate ",".data (f.arguments.map Argument.toCode) ++ ");".data)

/-- `generate_extern_function_declarations` from auto.py (renamed here):
`extern t<name> <name>_impl;`. -/
def generate_ext_function_declarations (functions : List Function) : List (List Char) :=
  functions.map (fun f =>
    "extern t".data ++ f.name ++ " ".data ++ f.name ++ "_impl;".data)

/-- `generate_extern_function_definitions` from auto.py (renamed here):
`t<name> <name>_impl;`. -/
def generate_ext_function_definitions (functions : List Function) : List (List Char) :=
  functions.map (fun f =>
    "t".data ++ f.name ++ " ".data ++ f.name ++ "_impl;".data)

/-- The macro prefix computed in `generate_dynload_calls`:
`os.path.basename(header).replace(".h", "").upper()`.  Note that
`str.replace` removes every occurrence of `".h"`, not only a trailing
extension. -/
def headerMacroOf (header : List Char) : List Char :=
  pyUpper (replaceAll ".h".data [] (basenameOf header))

/-- `generate_dynload_calls`: `  <PREFIX>_LIBRARY_FIND(<name>);`. -/
def generate_dynload_calls (header : List Char) (functions : List Function) :
    List (List Char) :=
  functions.map (fun f =>
    "  ".data ++ headerMacroOf header ++ "_LIBRARY_FIND(".data ++ f.name ++ ");".data)

/-- `generate_extern_function_wrappers` from auto.py (renamed here): a full
definition under the original name forwarding to `<name>_impl`. -/
def generate_ext_function_wrappers (functions : List Function) : List (List Char) :=
  functions.map (fun f =>
    formatAndCleanType f.return_type ++ " ".data ++ f.name ++ "(".data ++
      List.intercalate ", ".data (f.arguments.map Argument.toCode) ++ ")".data ++
      " \x7b\n".data ++ "  return ".data ++ f.name ++ "_impl(".data ++
      List.intercalate ", ".data (f.arguments.map (fun a => a.name)) ++ ");\n".data ++
      "\x7d\n".data)

/-- `generate_wrapper_declarations`: the wrapper signature followed by `;`.
Note the return type is normalized a second time here
(`formatAndCleanType(function.return_type)`). -/
def generate_wrapper_declarations (functions : List Function) : List (List Char) :=
  functions.map (fun f =>
    formatAndCleanType f.return_type ++ " ".data ++ f.name ++ "(".data ++
      List.intercalate ", ".data (f.arguments.map Argument.toCode) ++ ");".data)

/-! ## Wrangler Aggregator -/

/-- The wrangler context from `__main__`: one append-only bucket per
(category, subcategory) pair, in the dict-literal insertion order. -/
structure Wrangler where
  functions_typedefs : List (List Char)
  functions_wrapper_declarations : List (List Char)
  functions_declarations : List (List Char)
  functions_definitions : List (List Char)
  functions_dynload : List (List Char)
  functions_wrappers : List (List Char)
  types_definitions : List (List Char)
  definitions_all : List (List Char)

/-- The empty wrangler built at the start of `__main__`. -/
def initialWrangler : Wrangler :=
  { functions_typedefs := []
    functions_wrapper_declarations := []
    functions_declarations := []
    functions_definitions := []
    functions_dynload := []
    functions_wrappers := []
    types_definitions := []
    definitions_all := [] }

/-- The per-header comment marker `"/* " + os.path.basename(header) + " */"`. -/
def headerMarker (header : List Char) : List Char :=
  "/* ".data ++ basenameOf header ++ " */".data

/-- `add_functions_to_wrangler`: extend the six function buckets.  The marker
is prepended to typedefs, declarations, definitions, dynload (indented) and
wrappers, but `wrapper_declarations` receives the generated lines only. -/
def add_functions_to_wrangler (header : List Char) (w : Wrangler)
    (functions : List Function) : Wrangler :=
  { w with
    functions_typedefs :=
      w.functions_typedefs ++ headerMarker header :: generate_function_typedefs functions
    functions_wrapper_declarations :=
      w.functions_wrapper_declarations ++ generate_wrapper_declarations functions
    functions_declarations :=
      w.functions_declarations ++
        headerMarker header :: generate_ext_function_declarations functions
    functions_definitions :=
      w.functions_definitions ++
        headerMarker header :: generate_ext_function_definitions functions
    functions_dynload :=
      w.functions_dynload ++
        ("  ".data ++ headerMarker header) :: generate_dynload_calls header functions
    functions_wrappers :=
      w.functions_wrappers ++
        headerMarker header :: generate_ext_function_wrappers functions }

/-- `add_types_to_wrangler`: the marker, then `str(type) + ";\n"` per typedef. -/
def add_types_to_wrangler (header : List Char) (w : Wrangler)
    (types : List TypeDefinition) : Wrangler :=
  { w with
    types_definitions :=
      w.types_definitions ++
        headerMarker header :: types.map (fun t => TypeDefinition.toCode t ++ ";\n".data) }

/-- `add_definitions_to_wrangler`: the collected define lines, with no marker. -/
def add_definitions_to_wrangler (_header : List Char) (w : Wrangler)
    (definitions : List (List Char)) : Wrangler :=
  { w with definitions_all := w.definitions_all ++ definitions }

/-! ## Template Substitution Engine -/

/-- The `(placeholder token, bucket)` pairs in the iteration order of
`replace_template_variables`, which is the insertion order of the nested
dict literal in `__main__`. -/
def wranglerBuckets (w : Wrangler) : List (List Char × List (List Char)) :=
  [("%functions_typedefs%".data, w.functions_typedefs),
   ("%functions_wrapper_declarations%".data, w.functions_wrapper_declarations),
   ("%functions_declarations%".data, w.functions_declarations),
   ("%functions_definitions%".data, w.functions_definitions),
   ("%functions_dynload%".data, w.functions_dynload),
   ("%functions_wrappers%".data, w.functions_wrappers),
   ("%types_definitions%".data, w.types_definitions),
   ("%definitions_all%".data, w.definitions_all)]

/-- `replace_template_variables`: for each pair in order, replace every
occurrence of its token in the running text with the newline-joined bucket.
Each replacement is applied to the result of the previous one. -/
def replace_template_variables (w : Wrangler) (data : List Char) : List Char :=
  (wranglerBuckets w).foldl
    (fun d b => replaceAll b.1 (List.intercalate "\n".data b.2) d) data

/-! ## Main logic (`__main__`), one run of the generator -/

/-- One header input as the pipeline sees it: its path, the parsed
translation-unit cursor (the clang black box output) and the raw text lines
used by `collect_defines`. -/
structure HeaderInput where
  path : List Char
  tu : Cursor
  rawLines : List (List Char)

/-- `parse_file`: functions, typedefs and define lines of one header. -/
def parse_file (h : HeaderInput) :
    List Function × List TypeDefinition × List (List Char) :=
  (collect_function_prototypes h.tu, collect_types h.tu, collect_defines h.rawLines)

/-- The body of one iteration of the `for header in headers` loop, up to but
excluding the write: the three `add_*_to_wrangler` calls in source order. -/
def stepHeader (w : Wrangler) (h : HeaderInput) : Wrangler :=
  let p := parse_file h
  add_definitions_to_wrangler h.path
    (add_types_to_wrangler h.path
      (add_functions_to_wrangler h.path w p.1) p.2.1) p.2.2

/-- Observable events of a run: a header finishing its extraction/synthesis
phase, and the two template-substituted files being written. -/
inductive REvent where
  | processed (path : List Char)
  | wrote (hOut cOut : List Char)
deriving DecidableEq

/-- The `for header in headers` loop of `__main__` with templates `tH`/`tC`:
note that `write_wrangler_to_files` is called inside the loop, so both
output files are written at the end of every iteration. -/
def mainRunAux (tH tC : List Char) : Wrangler → List HeaderInput → List REvent
  | _, [] => []
  | w, h :: rest =>
    let w2 := stepHeader w h
    REvent.processed h.path ::
      REvent.wrote (replace_template_variables w2 tH) (replace_template_variables w2 tC) ::
      mainRunAux tH tC w2 rest

/-- A whole run of the generator from the fresh wrangler of `__main__`. -/
def mainRun (tH tC : List Char) (inputs : List HeaderInput) : List REvent :=
  mainRunAux tH tC initialWrangler inputs

/-- The contents of the file writes of a trace, in order. -/
def writesOf : List REvent → List (List Char × List Char)
  | [] => []
  | REvent.processed _ :: es => writesOf es
  | REvent.wrote a b :: es => (a, b) :: writesOf es

/-- The pairs of file contents a run writes, in order. -/
def runWrites (tH tC : List Char) (inputs : List HeaderInput) :
    List (List Char × List Char) :=
  writesOf (mainRun tH tC inputs)

/-- The wrangler after all headers have been extracted and appended. -/
def finalWranglerOf (inputs : List HeaderInput) : Wrangler :=
  inputs.foldl stepHeader initialWrangler

/-! ## Claim-side notions.

These definitions follow the wording of spec claims (not the source) and
exist to be compared with the source-derived definitions above. -/

/-- A normalized type spelling in the sense needed for idempotence: no
`" *"` substring, already whitespace-trimmed, and not of the form that the
struct-stripping step would rewrite again. -/
def isNormalType (s : List Char) : Bool :=
  !(occursSub " *".data s) && (pyStrip s == s) &&
    !("struct ".data.isPrefixOf s && !(s.getLast? == some '*'))

/-- Whether a child cursor is of one of the four kinds the typedef loop
assigns a type from. -/
def matchesTypeKind (c : Cursor) : Bool :=
  match c.kind with
  | CursorKind.STRUCT_DECL => true
  | CursorKind.UNION_DECL => true
  | CursorKind.ENUM_DECL => true
  | CursorKind.TYPE_REF => true
  | _ => false

/-- How a matching child is rendered by the corresponding branch of the
typedef loop. -/
def renderTypeChild (c : Cursor) : List Char :=
  match c.kind with
  | CursorKind.STRUCT_DECL => combine_struct_decl c
  | CursorKind.UNION_DECL => combine_union_decl c
  | CursorKind.ENUM_DECL => combine_enum_decl c
  | CursorKind.TYPE_REF => c.spelling
  | _ => []

/-- The last child of matching kind, defined independently of the loop. -/
def lastMatch : List Cursor → Option Cursor
  | [] => none
  | c :: cs =>
    match lastMatch cs with
    | some x => some x
    | none => if matchesTypeKind c then some c else none

/-- Modelled from the claim wording for C6: the base filename with its
(trailing) file extension stripped, i.e. everything before the last dot. -/
def stripLastExt (s : List Char) : List Char :=
  if '.' ∈ s then ((s.reverse.dropWhile (fun c => !(c == '.'))).tail).reverse else s

/-- Modelled from the claim wording for C6: extension-stripped basename,
upper-cased. -/
def claimMacroOf (header : List Char) : List Char :=
  pyUpper (stripLastExt (basenameOf header))

/-- The amended C1 property for one function entity: the typedef uses the
entity's `return_type` as stored, the wrapper prototype and wrapper body use
the same string, the extern declaration/definition mention no types, and all
fragments consume the same ordered argument sequence
(`str(arg)` = `Argument.toCode`, names only for the forwarding call). -/
def c1Spec (f : Function) : Prop :=
  generate_function_typedefs [f] =
    ["typedef ".data ++ f.return_type ++ " (*t".data ++ f.name ++ ") (".data ++
      List.intercalate ",".data (f.arguments.map Argument.toCode) ++ ");".data] ∧
  generate_wrapper_declarations [f] =
    [f.return_type ++ " ".data ++ f.name ++ "(".data ++
      List.intercalate ", ".data (f.arguments.map Argument.toCode) ++ ");".data] ∧
  generate_ext_function_wrappers [f] =
    [f.return_type ++ " ".data ++ f.name ++ "(".data ++
      List.intercalate ", ".data (f.arguments.map Argument.toCode) ++ ")".data ++
      " \x7b\n".data ++ "  return ".data ++ f.name ++ "_impl(".data ++
      List.intercalate ", ".data (f.arguments.map (fun a => a.name)) ++ ");\n".data ++
      "\x7d\n".data] ∧
  generate_ext_function_declarations [f] =
    ["extern t".data ++ f.name ++ " ".data ++ f.name ++ "_impl;".data] ∧
  generate_ext_function_definitions [f] =
    ["t".data ++ f.name ++ " ".data ++ f.name ++ "_impl;".data]

/-! ## Concrete fixtures used by counterexamples and witnesses -/

/-- A parameter cursor for `int a`. -/
def paramA : Cursor :=
  Cursor.mk "a".data "int".data [] [] CursorKind.PARM_DECL 0 none []

/-- A function-declaration cursor for `int f(int a)`. -/
def cursorInt : Cursor :=
  Cursor.mk "f".data [] [] "int".data CursorKind.FUNCTION_DECL 0
    (some "h.h".data) [paramA]

/-- The `Function` entity built from `cursorInt`. -/
def fInt : Function := Function.fromCursor cursorInt

/-- A function-declaration cursor whose raw return-type spelling
`"struct  Foo"` (two spaces) normalizes to a non-fixed-point of
`formatAndCleanType`. -/
def cursorCex : Cursor :=
  Cursor.mk "f".data [] [] "struct  Foo".data CursorKind.FUNCTION_DECL 0
    (some "h.h".data) []

/-- The `Function` entity built from `cursorCex`. -/
def fCex : Function := Function.fromCursor cursorCex

/-- A field cursor `int x`. -/
def fieldX : Cursor :=
  Cursor.mk "x".data "int".data [] [] CursorKind.FIELD_DECL 0 none []

/-- A struct child `struct S ... int x; ...` of a typedef cursor. -/
def structChild : Cursor :=
  Cursor.mk "S".data [] [] [] CursorKind.STRUCT_DECL 0 none [fieldX]

/-- A type-reference child `RefT` of a typedef cursor. -/
def refChild : Cursor :=
  Cursor.mk "RefT".data [] [] [] CursorKind.TYPE_REF 0 none []

/-- A typedef cursor whose children are a struct declaration followed by a
type reference. -/
def tdCex : Cursor :=
  Cursor.mk "MyT".data [] [] "struct S".data CursorKind.TYPEDEF_DECL 0
    (some "h.h".data) [structChild, refChild]

/-- A translation-unit cursor for a header named `a.h` with no declarations. -/
def tuA : Cursor :=
  Cursor.mk "a.h".data [] [] [] CursorKind.other 0 none []

/-- A translation-unit cursor for a header named `b.h` with no declarations. -/
def tuB : Cursor :=
  Cursor.mk "b.h".data [] [] [] CursorKind.other 0 none []

/-- Header input `a.h` with an empty translation unit and no raw lines. -/
def hdrA : HeaderInput := { path := "a.h".data, tu := tuA, rawLines := [] }

/-- Header input `b.h` with an empty translation unit and no raw lines. -/
def hdrB : HeaderInput := { path := "b.h".data, tu := tuB, rawLines := [] }

/-- A wrangler whose `functions/typedefs` bucket content contains the
placeholder token of the later-processed `types/definitions` pair. -/
def w10 : Wrangler :=
  { initialWrangler with
    functions_typedefs := ["A %types_definitions% B".data]
    types_definitions := ["FOO".data] }

/-! ## Helper lemmas -/

/-- The fuel of `replaceAllFuel` is irrelevant once it covers the scanned
list's length. -/
lemma replaceAllFuel_congr (pat rep : List Char) :
    ∀ (f g : Nat) (s : List Char), s.length ≤ f → s.length ≤ g →
      replaceAllFuel pat rep f s = replaceAllFuel pat rep g s := by
  intro f
  induction f with
  | zero =>
    intro g s h1 _
    have hs : s = [] := List.eq_nil_of_length_eq_zero (Nat.le_zero.mp h1)
    subst hs
    cases g <;> rfl
  | succ f ih =>
    intro g s h1 h2
    cases s with
    | nil => cases g <;> rfl
    | cons c cs =>
      cases g with
      | zero => simp at h2
      | succ g =>
        simp only [replaceAllFuel]
        have hcf : cs.length ≤ f := by simpa using h1
        have hcg : cs.length ≤ g := by simpa using h2
        by_cases h : (pat.isPrefixOf (c :: cs) && !pat.isEmpty) = true
        · rw [if_pos h, if_pos h]
          have hd : (cs.drop (pat.length - 1)).length ≤ cs.length := by
            rw [List.length_drop]; omega
          exact congrArg (rep ++ ·) (ih g _ (le_trans hd hcf) (le_trans hd hcg))
        · rw [if_neg h, if_neg h]
          exact congrArg (c :: ·) (ih g cs hcf hcg)

/-- Unfolding equation for `replaceAll` on a nonempty list. -/
lemma replaceAll_cons (pat rep : List Char) (c : Char) (cs : List Char) :
    replaceAll pat rep (c :: cs) =
      if pat.isPrefixOf (c :: cs) && !pat.isEmpty then
        rep ++ replaceAll pat rep (cs.drop (pat.length - 1))
      else c :: replaceAll pat rep cs := by
  show replaceAllFuel pat rep (c :: cs).length (c :: cs) = _
  simp only [List.length_cons, replaceAllFuel]
  by_cases h : (pat.isPrefixOf (c :: cs) && !pat.isEmpty) = true
  · rw [if_pos h, if_pos h]
    refine congrArg (rep ++ ·) (replaceAllFuel_congr pat rep _ _ _ ?_ le_rfl)
    rw [List.length_drop]; omega
  · rw [if_neg h, if_neg h]; rfl

/-- `str.replace` leaves a string unchanged when the pattern does not occur. -/
lemma replaceAll_id_of_not_occurs (pat rep : List Char) :
    ∀ s, occursSub pat s = false → replaceAll pat rep s = s := by
  intro s
  induction s with
  | nil => intro _; rfl
  | cons c cs ih =>
    intro h
    simp only [occursSub, Bool.or_eq_false_iff] at h
    rw [replaceAll_cons, if_neg (by simp [h.1])]
    exact congrArg (c :: ·) (ih h.2)

/-- A normal type spelling is a fixed point of `formatAndCleanType`. -/
lemma formatAndClean_of_normal (s : List Char) (h : isNormalType s = true) :
    formatAndCleanType s = s := by
  simp only [isNormalType, Bool.and_eq_true, Bool.not_eq_true'] at h
  obtain ⟨⟨h1, h2⟩, h3⟩ := h
  have h2' : pyStrip s = s := by simpa using h2
  simp only [formatAndCleanType]
  rw [replaceAll_id_of_not_occurs _ _ _ h1, h2', if_neg (by simp [h3])]

/-- Removing `".h"` from `stem ++ ".h"` yields `stem` when `".h"` does not
occur inside `stem`. -/
lemma replaceAll_append_dotH :
    ∀ stem : List Char, occursSub ".h".data stem = false →
      replaceAll ".h".data [] (stem ++ ".h".data) = stem := by
  intro stem
  induction stem with
  | nil => intro _; decide
  | cons c cs ih =>
    intro h
    simp only [occursSub, Bool.or_eq_false_iff] at h
    have hpre : ".h".data.isPrefixOf (c :: (cs ++ ".h".data)) = false := by
      cases cs with
      | nil =>
        have hh : ('h' == '.') = false := by decide
        simp [List.isPrefixOf, String.data, hh]
      | cons d ds =>
        have heq : ".h".data.isPrefixOf (c :: ((d :: ds) ++ ".h".data)) =
            ".h".data.isPrefixOf (c :: d :: ds) := by
          simp [List.isPrefixOf, String.data]
        rw [heq]
        exact h.1
    rw [List.cons_append, replaceAll_cons, if_neg (by simp [hpre])]
    exact congrArg (c :: ·) (ih h.2)

/-- Stripping the trailing extension of `stem ++ ".h"` yields `stem`. -/
lemma stripLastExt_append_dotH (stem : List Char) :
    stripLastExt (stem ++ ".h".data) = stem := by
  have hmem : '.' ∈ stem ++ ".h".data := by
    refine List.mem_append.mpr (Or.inr ?_)
    simp [String.data]
  simp only [stripLastExt, if_pos hmem, List.reverse_append]
  have hrev : ".h".data.reverse = ['h', '.'] := by decide
  rw [hrev]
  have hdw : List.dropWhile (fun c => !(c == '.')) (['h', '.'] ++ stem.reverse) =
      '.' :: stem.reverse := by
    simp [List.dropWhile]
  rw [hdw]
  simp

/-- `typeResolveStep` as an overwrite-on-match step. -/
lemma typeResolveStep_eq (acc : Option (List Char)) (c : Cursor) :
    typeResolveStep acc c =
      if matchesTypeKind c then some (renderTypeChild c) else acc := by
  cases hc : c.kind <;> simp [typeResolveStep, matchesTypeKind, renderTypeChild, hc]

/-- The typedef child loop computes the rendering of the LAST matching
child (later matching children overwrite earlier ones). -/
lemma typeResolve_foldl :
    ∀ (cs : List Cursor) (acc : Option (List Char)),
      List.foldl typeResolveStep acc cs =
        (match lastMatch cs with
         | some x => some (renderTypeChild x)
         | none => acc) := by
  intro cs
  induction cs with
  | nil => intro acc; rfl
  | cons c cs ih =>
    intro acc
    rw [List.foldl_cons, ih]
    simp only [lastMatch]
    cases hl : lastMatch cs with
    | some x => simp
    | none =>
      rw [typeResolveStep_eq]
      cases hm : matchesTypeKind c <;> simp [hm]

/-- One pair of files is written per header processed. -/
lemma writesOf_mainRunAux_length (tH tC : List Char) :
    ∀ (inputs : List HeaderInput) (w : Wrangler),
      (writesOf (mainRunAux tH tC w inputs)).length = inputs.length := by
  intro inputs
  induction inputs with
  | nil => intro w; rfl
  | cons hd rest ih =>
    intro w
    simp only [mainRunAux, writesOf, List.length_cons]
    rw [ih]

/-- The last write of a run uses the wrangler populated by every header. -/
lemma writesOf_mainRunAux_last (tH tC : List Char) :
    ∀ (inputs : List HeaderInput) (w : Wrangler), inputs ≠ [] →
      (writesOf (mainRunAux tH tC w inputs)).getLast? =
        some (replace_template_variables (inputs.foldl stepHeader w) tH,
              replace_template_variables (inputs.foldl stepHeader w) tC) := by
  intro inputs
  induction inputs with
  | nil => intro w h; exact absurd rfl h
  | cons hd rest ih =>
    intro w _
    cases rest with
    | nil => simp [mainRunAux, writesOf]
    | cons hd2 rest2 =>
      have hne : writesOf (mainRunAux tH tC (stepHeader w hd) (hd2 :: rest2)) ≠ [] := by
        intro hnil
        have hlen := writesOf_mainRunAux_length tH tC (hd2 :: rest2) (stepHeader w hd)
        rw [hnil] at hlen
        simp at hlen
      have step : writesOf (mainRunAux tH tC w (hd :: hd2 :: rest2)) =
          (replace_template_variables (stepHeader w hd) tH,
           replace_template_variables (stepHeader w hd) tC) ::
            writesOf (mainRunAux tH tC (stepHeader w hd) (hd2 :: rest2)) := rfl
      rw [step, List.foldl_cons]
      cases hw : writesOf (mainRunAux tH tC (stepHeader w hd) (hd2 :: rest2)) with
      | nil => exact absurd hw hne
      | cons p ps =>
        rw [List.getLast?_cons_cons, ← hw, ih (stepHeader w hd) (by simp)]

/-! ## Claim theorems -/

/-- C1 counterexample: the claim "the return type printed in the wrapper
prototype equals the return type printed in the typedef, for every possible
C type spelling of the return type" is false.  For the raw result-type
spelling `"struct  Foo"` (two spaces) the entity stores `" Foo"`, the
typedef prints `" Foo"`, but the wrapper prototype re-normalizes and prints
`"Foo"` — two different strings. -/
theorem c1_counterexample :
    generate_function_typedefs [fCex] = ["typedef  Foo (*tf) ();".data] ∧
    generate_wrapper_declarations [fCex] = ["Foo f();".data] ∧
    formatAndCleanType fCex.return_type ≠ fCex.return_type :=
  ⟨by decide, by decide, by decide⟩

/-- C1 (amended): all fragments of one function entity share the stored
normalized argument strings in order, and — whenever the once-normalized
return type is a fixed point of `formatAndCleanType` — the typedef, the
wrapper prototype and the wrapper body all print the same return-type
string (the extern declaration and definition print no types at all). -/
theorem c1_amended (f : Function)
    (h : formatAndCleanType f.return_type = f.return_type) : c1Spec f := by
  unfold c1Spec
  refine ⟨rfl, ?_, ?_, rfl, rfl⟩
  · simp [generate_wrapper_declarations, h]
  · simp [generate_ext_function_wrappers, h]

/-- C1 witness: the amended claim instantiated at `int f(int a)`. -/
theorem c1_witness :
    formatAndCleanType fInt.return_type = fInt.return_type ∧ c1Spec fInt :=
  ⟨by decide, c1_amended fInt (by decide)⟩

/-- C2 counterexample: normalization is not idempotent.  At
`"int  *"` (two spaces before the star) one application yields `"int *"`,
whose second application yields `"int*"`. -/
theorem c2_counterexample :
    formatAndCleanType (formatAndCleanType "int  *".data) ≠
      formatAndCleanType "int  *".data := by decide

/-- C2 (amended): normalization is idempotent at every spelling whose
normalization is normal (no `" *"` substring, whitespace-trimmed, and not
starting with `"struct "` without a trailing star). -/
theorem c2_amended (t : List Char)
    (h : isNormalType (formatAndCleanType t) = true) :
    formatAndCleanType (formatAndCleanType t) = formatAndCleanType t :=
  formatAndClean_of_normal _ h

/-- C2 witness: the amended claim instantiated at `"struct Foo *"`. -/
theorem c2_witness :
    isNormalType (formatAndCleanType "struct Foo *".data) = true ∧
    formatAndCleanType (formatAndCleanType "struct Foo *".data) =
      formatAndCleanType "struct Foo *".data :=
  ⟨by decide, c2_amended "struct Foo *".data (by decide)⟩

/-- C3 counterexample: the claim "the first matching child wins and the
other resolution paths are not attempted" is false.  For a typedef cursor
whose children are a struct declaration followed by a type reference, the
resolved type is the type reference's spelling, not the struct rendering. -/
theorem c3_counterexample :
    tdCex.children = [structChild, refChild] ∧
    matchesTypeKind structChild = true ∧
    (TypeDefinition.fromCursor tdCex).type = "RefT".data ∧
    "RefT".data ≠ combine_struct_decl structChild :=
  ⟨rfl, rfl, by decide, by decide⟩

/-- C3 (amended): the `if/elif` chain has no `break`, so the LAST child of
kind struct/union/enum/type-reference determines the rendered type; only
when no child of those kinds exists does the type fall back to the
canonical spelling of the typedef's underlying type. -/
theorem c3_amended (c : Cursor) :
    (TypeDefinition.fromCursor c).type =
      (match lastMatch c.children with
       | some x => renderTypeChild x
       | none => formatAndCleanType c.canonicalTypeSpelling) := by
  simp only [TypeDefinition.fromCursor]
  rw [typeResolve_foldl]
  cases lastMatch c.children <;> rfl

/-- C4 counterexample: the claim that every bucket, including
`functions/wrapper_declarations` and `definitions/all`, receives the header
marker line first is false: both buckets receive their fragments with no
marker, as shown on a one-function header and a one-define header. -/
theorem c4_counterexample :
    (add_functions_to_wrangler "xcb.h".data initialWrangler
        [fInt]).functions_wrapper_declarations = ["int f(int a);".data] ∧
    "int f(int a);".data ≠ headerMarker "xcb.h".data ∧
    (add_definitions_to_wrangler "xcb.h".data initialWrangler
        ["#define XCB_X 1".data]).definitions_all = ["#define XCB_X 1".data] ∧
    "#define XCB_X 1".data ≠ headerMarker "xcb.h".data :=
  ⟨by decide, by decide, by decide, by decide⟩

/-- C4 (amended): the marker precedes the header's fragments in the buckets
`functions/{typedefs, declarations, definitions, dynload, wrappers}` (the
dynload marker is two-space indented) and `types/definitions`; the
`functions/wrapper_declarations` and `definitions/all` buckets receive the
fragments only, with no marker. -/
theorem c4_amended (header : List Char) (w : Wrangler) (fs : List Function)
    (ts : List TypeDefinition) (ds : List (List Char)) :
    (add_functions_to_wrangler header w fs).functions_typedefs =
      w.functions_typedefs ++ headerMarker header :: generate_function_typedefs fs ∧
    (add_functions_to_wrangler header w fs).functions_declarations =
      w.functions_declarations ++
        headerMarker header :: generate_ext_function_declarations fs ∧
    (add_functions_to_wrangler header w fs).functions_definitions =
      w.functions_definitions ++
        headerMarker header :: generate_ext_function_definitions fs ∧
    (add_functions_to_wrangler header w fs).functions_dynload =
      w.functions_dynload ++
        ("  ".data ++ headerMarker header) :: generate_dynload_calls header fs ∧
    (add_functions_to_wrangler header w fs).functions_wrappers =
      w.functions_wrappers ++
        headerMarker header :: generate_ext_function_wrappers fs ∧
    (add_types_to_wrangler header w ts).types_definitions =
      w.types_definitions ++
        headerMarker header :: ts.map (fun t => TypeDefinition.toCode t ++ ";\n".data) ∧
    (add_functions_to_wrangler header w fs).functions_wrapper_declarations =
      w.functions_wrapper_declarations ++ generate_wrapper_declarations fs ∧
    (add_definitions_to_wrangler header w ds).definitions_all =
      w.definitions_all ++ ds :=
  ⟨rfl, rfl, rfl, rfl, rfl, rfl, rfl, rfl⟩

/-- C5 counterexample: the claim "the substitution engine executes exactly
once, only after every header is processed" is false: with two headers the
run writes both output files twice, the first time before the second header
is processed (trace position 1, before `processed "b.h"` at position 2). -/
theorem c5_counterexample :
    mainRun "T".data "U".data [hdrA, hdrB] =
      [REvent.processed "a.h".data, REvent.wrote "T".data "U".data,
       REvent.processed "b.h".data, REvent.wrote "T".data "U".data] ∧
    (runWrites "T".data "U".data [hdrA, hdrB]).length ≠ 1 :=
  ⟨by decide, by decide⟩

/-- C5 (amended): `write_wrangler_to_files` runs inside the header loop, so
the engine executes once per header (N times for N headers); the final
write uses the wrangler populated by all headers, so the final file
contents equal those of a single end-of-run substitution. -/
theorem c5_amended (tH tC : List Char) (inputs : List HeaderInput)
    (h : inputs ≠ []) :
    (runWrites tH tC inputs).length = inputs.length ∧
    (runWrites tH tC inputs).getLast? =
      some (replace_template_variables (finalWranglerOf inputs) tH,
            replace_template_variables (finalWranglerOf inputs) tC) :=
  ⟨writesOf_mainRunAux_length tH tC inputs initialWrangler,
   writesOf_mainRunAux_last tH tC inputs initialWrangler h⟩

/-- C5 witness: the amended claim instantiated at a one-header run. -/
theorem c5_witness :
    ([hdrA] : List HeaderInput) ≠ [] ∧
    ((runWrites "T".data "U".data [hdrA]).length = [hdrA].length ∧
     (runWrites "T".data "U".data [hdrA]).getLast? =
       some (replace_template_variables (finalWranglerOf [hdrA]) "T".data,
             replace_template_variables (finalWranglerOf [hdrA]) "U".data)) :=
  ⟨by simp, c5_amended "T".data "U".data [hdrA] (by simp)⟩

/-- C6 counterexample: the claim "only the trailing extension is removed"
is false.  For the header basename `"foo.h.h"` the code removes every
`".h"` occurrence and produces prefix `"FOO"`, while stripping only the
trailing extension would give `"FOO.H"`. -/
theorem c6_counterexample :
    headerMacroOf "foo.h.h".data = "FOO".data ∧
    claimMacroOf "foo.h.h".data = "FOO.H".data ∧
    headerMacroOf "foo.h.h".data ≠ claimMacroOf "foo.h.h".data ∧
    generate_dynload_calls "foo.h.h".data [fInt] =
      ["  FOO_LIBRARY_FIND(f);".data] :=
  ⟨by decide, by decide, by decide, by decide⟩

/-- C6 (amended): the macro prefix is the basename with every occurrence of
the substring `".h"` removed, upper-cased; this coincides with the claimed
extension-stripping exactly when the basename ends in `".h"` and `".h"`
occurs nowhere else in it, and every dynload line uses that prefix. -/
theorem c6_amended (header stem : List Char) (fs : List Function)
    (h1 : basenameOf header = stem ++ ".h".data)
    (h2 : occursSub ".h".data stem = false) :
    headerMacroOf header = pyUpper stem ∧
    headerMacroOf header = claimMacroOf header ∧
    generate_dynload_calls header fs =
      fs.map (fun f =>
        "  ".data ++ pyUpper stem ++ "_LIBRARY_FIND(".data ++ f.name ++ ");".data) := by
  have hm : headerMacroOf header = pyUpper stem := by
    unfold headerMacroOf
    rw [h1, replaceAll_append_dotH stem h2]
  refine ⟨hm, ?_, ?_⟩
  · unfold claimMacroOf
    rw [h1, stripLastExt_append_dotH, hm]
  · simp only [generate_dynload_calls, hm]

/-- C6 witness: the amended claim instantiated at the default header
`/usr/include/xcb/xcb.h`. -/
theorem c6_witness :
    basenameOf "/usr/include/xcb/xcb.h".data = "xcb".data ++ ".h".data ∧
    occursSub ".h".data "xcb".data = false ∧
    (headerMacroOf "/usr/include/xcb/xcb.h".data = pyUpper "xcb".data ∧
     headerMacroOf "/usr/include/xcb/xcb.h".data =
       claimMacroOf "/usr/include/xcb/xcb.h".data ∧
     generate_dynload_calls "/usr/include/xcb/xcb.h".data [fInt] =
       [fInt].map (fun f =>
         "  ".data ++ pyUpper "xcb".data ++ "_LIBRARY_FIND(".data ++ f.name ++
           ");".data)) :=
  ⟨by decide, by decide,
   c6_amended "/usr/include/xcb/xcb.h".data "xcb".data [fInt] (by decide) (by decide)⟩

/-- C7 counterexample: the claim "each kept line is preserved verbatim
including its original leading/trailing whitespace" is false: the collector
appends the stripped line. -/
theorem c7_counterexample :
    collect_defines ["  #define XCB_NONE 0  ".data] = ["#define XCB_NONE 0".data] ∧
    "#define XCB_NONE 0".data ≠ "  #define XCB_NONE 0  ".data :=
  ⟨by decide, by decide⟩

/-- C7 (amended): the collector keeps exactly the lines whose stripped form
starts with `"#define XCB"`, and each kept line is that stripped form (not
the raw line); the spec's end-to-end scenario (keep `#define XCB_NONE 0`,
exclude `#define FOO 1`) holds. -/
theorem c7_amended (lines : List (List Char)) :
    collect_defines lines =
      lines.filterMap (fun l =>
        if "#define XCB".data.isPrefixOf (pyStrip l) then some (pyStrip l) else none) ∧
    collect_defines ["#define XCB_NONE 0".data, "#define FOO 1".data] =
      ["#define XCB_NONE 0".data] := by
  constructor
  · induction lines with
    | nil => rfl
    | cons l ls ih =>
      have hstep : collect_defines (l :: ls) =
          if "#define XCB".data.isPrefixOf (pyStrip l) then
            pyStrip l :: collect_defines ls
          else collect_defines ls := rfl
      rw [hstep, List.filterMap_cons]
      cases hc : "#define XCB".data.isPrefixOf (pyStrip l) with
      | true => simp [ih]
      | false => simp [ih]
  · decide

/-- C8 counterexample: merging `"int[4]"` with the empty name yields
`"int [4]"` — the base type, the always-present single space separator,
then the dimensions — not the base type immediately followed by `"[4]"`. -/
theorem c8_counterexample :
    mergeTypeAndVariable "int[4]".data [] = "int [4]".data ∧
    "int [4]".data ≠ "int".data ++ "[4]".data :=
  ⟨by decide, by decide⟩

/-- C8 (amended): for every type spelling the merge totals to
`base ++ " " ++ name ++ dims`; with the empty name the dimensions follow
the single standard separator directly, with nothing extra in between, and
the spec's dimension-relocation examples hold. -/
theorem c8_amended (t v : List Char) :
    ∃ base dims,
      mergeTypeAndVariable t v = base ++ ' ' :: (v ++ dims) ∧
      mergeTypeAndVariable t [] = base ++ ' ' :: dims ∧
      mergeTypeAndVariable "int[4]".data "x".data = "int x[4]".data ∧
      mergeTypeAndVariable "char[2][3]".data "buf".data = "char buf[2][3]".data :=
  ⟨pyStrip (mergeDims (pyStrip t).length (pyStrip t) []).1,
   (mergeDims (pyStrip t).length (pyStrip t) []).2,
   rfl, rfl, by decide, by decide⟩

/-- C9: determinism/idempotence of the pipeline.  Two runs over equal
header inputs and equal templates produce the same write sequence, and
running the generator a second time (its writes overwriting the first
run's) leaves the final file contents identical to a single run's. -/
theorem c9_determinism (tH tC : List Char) (i1 i2 : List HeaderInput)
    (h : i1 = i2) (hne : i1 ≠ []) :
    runWrites tH tC i1 = runWrites tH tC i2 ∧
    (runWrites tH tC i1 ++ runWrites tH tC i2).getLast? =
      (runWrites tH tC i1).getLast? := by
  subst h
  refine ⟨rfl, ?_⟩
  have hlen : (runWrites tH tC i1).length = i1.length :=
    writesOf_mainRunAux_length tH tC i1 initialWrangler
  have hw : runWrites tH tC i1 ≠ [] := by
    intro hnil
    rw [hnil] at hlen
    exact hne (List.eq_nil_of_length_eq_zero hlen.symm)
  rw [List.getLast?_append]
  cases hw2 : (runWrites tH tC i1).getLast? with
  | none => exact absurd (List.getLast?_eq_none_iff.mp hw2) hw
  | some p => rfl

/-- C9 witness: the determinism theorem instantiated at a one-header run. -/
theorem c9_witness :
    ([hdrA] : List HeaderInput) = [hdrA] ∧
    ([hdrA] : List HeaderInput) ≠ [] ∧
    (runWrites "T".data "U".data [hdrA] = runWrites "T".data "U".data [hdrA] ∧
     (runWrites "T".data "U".data [hdrA] ++ runWrites "T".data "U".data [hdrA]).getLast? =
       (runWrites "T".data "U".data [hdrA]).getLast?) :=
  ⟨rfl, by simp, c9_determinism "T".data "U".data [hdrA] [hdrA] rfl (by simp)⟩

/-- C10: substitution is sequential.  With the `functions/typedefs` bucket
content containing the token `%types_definitions%` of the later-processed
pair, the output substitutes that token too (`"X A FOO B Y"`): the token
occurs in the joined bucket content but not in the final output. -/
theorem c10_sequential_substitution :
    replace_template_variables w10 "X %functions_typedefs% Y".data =
      "X A FOO B Y".data ∧
    occursSub "%types_definitions%".data
      (List.intercalate "\n".data w10.functions_typedefs) = true ∧
    occursSub "%types_definitions%".data
      (replace_template_variables w10 "X %functions_typedefs% Y".data) = false :=
  ⟨by decide, by decide, by decide⟩

end XCB
